import Mathlib

set_option maxRecDepth 10000

/-!
Verification of the chat session subsystem of this repository, embedded from
src/app_chat.py. Pure helpers (title derivation) are translated directly;
the Streamlit session state is modelled as an explicit state record, and the
streamed provider response is modelled as a list of chunk contents together
with the terminal outcome (normal completion or an OpenAIError raised before
or during iteration).
-/

namespace KnitecIQ

/-- ASCII whitespace recognised by Python str.split() and str.strip()
(non-ASCII unicode whitespace is not modelled). -/
def pyIsSpace (c : Char) : Bool :=
  c == ' ' || c == '\t' || c == '\n' || c == '\r' || c == '\x0b' || c == '\x0c'

/-- Accumulator-based splitter behind Python str.split() with no arguments:
splits on runs of whitespace and never produces empty words. -/
def pySplitAux : List Char → List Char → List (List Char)
  | [], acc => if acc.isEmpty then [] else [acc.reverse]
  | c :: cs, acc =>
    if pyIsSpace c then
      if acc.isEmpty then pySplitAux cs [] else acc.reverse :: pySplitAux cs []
    else pySplitAux cs (c :: acc)

/-- Python s.split() (line 201 applies .strip() first, which is a no-op
before .split() since split already ignores boundary whitespace). -/
def pyWords (s : String) : List String :=
  (pySplitAux s.data []).map (fun l => ⟨l⟩)

/-- Python " ".join(ws). -/
def joinSp : List String → String
  | [] => ""
  | [w] => w
  | w :: ws => w ++ " " ++ joinSp ws

/-- Numeric value of a list of decimal digit characters. -/
def digitsToNat (ds : List Char) : Nat :=
  ds.foldl (fun n c => 10 * n + (c.toNat - 48)) 0

def intOfSign (neg : Bool) (n : Nat) : Int :=
  if neg then -(n : Int) else (n : Int)

/-- Models float(chat_id) (line 192) composed with taking the floor of the
parsed value in seconds, returning none when float() raises ValueError on the
literal, or when the magnitude is so large that datetime.fromtimestamp must
raise OverflowError anyway (both cases reach the same except branch of
default_chat_title). Finite decimal literals with optional surrounding
whitespace, sign, fractional part and exponent are covered; inf/nan (which
always make fromtimestamp raise) and underscore digit separators are not
modelled, and the value is treated exactly rather than rounded to binary
double precision. -/
def pyFloatFloor? (s : String) : Option Int :=
  let cs0 := ((s.data.dropWhile pyIsSpace).reverse.dropWhile pyIsSpace).reverse
  let sgn : Bool × List Char :=
    match cs0 with
    | '+' :: t => (false, t)
    | '-' :: t => (true, t)
    | t => (false, t)
  let neg := sgn.1
  let cs1 := sgn.2
  let ip := cs1.takeWhile Char.isDigit
  let cs2 := cs1.drop ip.length
  let fpSplit : List Char × List Char :=
    match cs2 with
    | '.' :: t => (t.takeWhile Char.isDigit, t.drop (t.takeWhile Char.isDigit).length)
    | t => ([], t)
  let fp := fpSplit.1
  let cs3 := fpSplit.2
  if ip.isEmpty && fp.isEmpty then none
  else
    let expPart : Option (Bool × List Char) :=
      match cs3 with
      | [] => some (true, [])
      | c :: t =>
        if c == 'e' || c == 'E' then
          let es : Bool × List Char :=
            match t with
            | '+' :: u => (true, u)
            | '-' :: u => (false, u)
            | u => (true, u)
          let ed := es.2.takeWhile Char.isDigit
          if ed.isEmpty || !(es.2.drop ed.length).isEmpty then none
          else some (es.1, ed)
        else none
    match expPart with
    | none => none
    | some ep =>
      let e := digitsToNat ep.2
      let k := fp.length
      let m : Nat := digitsToNat ip * 10 ^ k + digitsToNat fp
      if m = 0 then some 0
      else if ep.1 then
        if k ≤ e then
          if 13 < e - k then none
          else some (intOfSign neg (m * 10 ^ (e - k)))
        else some (Int.fdiv (intOfSign neg m) ((10 : Int) ^ (k - e)))
      else
        if (Nat.repr m).length ≤ k + e then some (if neg then -1 else 0)
        else some (Int.fdiv (intOfSign neg m) ((10 : Int) ^ (k + e)))

/-- Seconds-since-epoch values for which datetime.fromtimestamp succeeds
(years 1 through 9999), i.e. the whole try block of default_chat_title
succeeds exactly when this returns some floor value. -/
def epochFromId? (id : String) : Option Int :=
  match pyFloatFloor? id with
  | none => none
  | some t => if -62135596800 ≤ t ∧ t < 253402300800 then some t else none

/-- Proleptic-Gregorian civil date from the day count since 0001-01-01
(day 0), via the standard era-based conversion. -/
def civilFromDays (d1 : Nat) : Nat × Nat × Nat :=
  let z := d1 + 306
  let era := z / 146097
  let doe := z % 146097
  let yoe := (doe - doe / 1460 + doe / 36524 - doe / 146096) / 365
  let y := yoe + era * 400
  let doy := doe - (365 * yoe + yoe / 4 - yoe / 100)
  let mp := (5 * doy + 2) / 153
  let d := doy - (153 * mp + 2) / 5 + 1
  let m := if mp < 10 then mp + 3 else mp - 9
  (if m ≤ 2 then y + 1 else y, m, d)

def pad2 (n : Nat) : String :=
  if n < 10 then "0" ++ toString n else toString n

def pad4 (n : Nat) : String :=
  if n < 10 then "000" ++ toString n
  else if n < 100 then "00" ++ toString n
  else if n < 1000 then "0" ++ toString n
  else toString n

/-- strftime of the %Y-%m-%d %H:%M part for an epoch-second value;
datetime.fromtimestamp uses the local timezone, modelled here as UTC. -/
def formatEpochMinute (t : Int) : String :=
  let n := (t + 62135596800).toNat
  let ymd := civilFromDays (n / 86400)
  let sod := n % 86400
  pad4 ymd.1 ++ "-" ++ pad2 ymd.2.1 ++ "-" ++ pad2 ymd.2.2 ++ " "
    ++ pad2 (sod / 3600) ++ ":" ++ pad2 (sod % 3600 / 60)

/-- Lines 189-196: default_chat_title. Every exception path of the try block
(float parse failure, fromtimestamp overflow) yields the generic label. -/
def default_chat_title (chat_id : String) : String :=
  match epochFromId? chat_id with
  | some t => "Chat " ++ formatEpochMinute t
  | none => "New Chat"

/-- Lines 199-207: friendly_title_from_prompt. -/
def friendly_title_from_prompt (prompt : String) (chat_id : String) : String :=
  let words := pyWords prompt
  if words.isEmpty then default_chat_title chat_id
  else
    let snippet := joinSp (words.take 8)
    if 8 < words.length then snippet ++ "..." else snippet

/-! ## State model of the chat page -/

def MODEL_ROLE : String := "assistant"

def AI_AVATAR_ICON : String := "assets/Knitec_IQ_avatar.png"

def apiErrorSentinel : String := "(No response due to API error.)"

def noResponsePlaceholder : String := "(No response.)"

/-- A display-transcript entry of st.session_state.messages (user entries
carry no avatar key). -/
structure MsgD where
  role : String
  content : String
  avatar : Option String
  deriving DecidableEq, Repr

/-- A model-history entry of st.session_state.chat_history. -/
structure MsgH where
  role : String
  content : String
  deriving DecidableEq, Repr

/-- The dict stored under a chat id in st.session_state.chat_store. -/
structure ChatRecord where
  title : String
  messages : List MsgD
  chat_history : List MsgH
  deriving DecidableEq, Repr

/-- st.session_state.chat_store as a finite map from chat id. -/
def ChatStore := String → Option ChatRecord

def storeSet (st : ChatStore) (k : String) (v : ChatRecord) : ChatStore :=
  fun q => if q = k then some v else st q

/-- The session-state fields the chat page reads and writes. -/
structure AppState where
  chat_store : ChatStore
  chat_id : String
  chat_title : String
  messages : List MsgD
  chat_history : List MsgH

/-- Lines 72-81: the per-session defaults (chat_id is produced from
time.time(), passed in here as a parameter). -/
def freshState (id : String) : AppState :=
  { chat_store := fun _ => none, chat_id := id, chat_title := "New Chat",
    messages := [], chat_history := [] }

/-- The snapshot dict written into chat_store (this same shape appears at
lines 245-249, 260-264, 274-278, 319-323 and 371-375): the current title
plus copies of both transcripts. -/
def snapshot (s : AppState) : ChatRecord :=
  ⟨s.chat_title, s.messages, s.chat_history⟩

/-- One st.session_state.chat_store[chat_id] = dict(...) assignment. -/
def persistCurrent (s : AppState) : AppState :=
  { s with chat_store := storeSet s.chat_store s.chat_id (snapshot s) }

/-- Lines 213-224: _load_chat. -/
def load_chat (s : AppState) (id : String) : AppState :=
  match s.chat_store id with
  | some chat =>
    { s with chat_id := id,
             chat_title := if chat.title = "" then default_chat_title id else chat.title,
             messages := chat.messages,
             chat_history := chat.chat_history }
  | none =>
    { s with chat_id := id, chat_title := default_chat_title id,
             messages := [], chat_history := [] }

def introMsg : String :=
  "I\x27m Knitec IQ, a chatbot that will guide you through the KniTec Installation Questionnaire one question at a time and then summarize your answers."

/-- Lines 229-252: seed_intro_message (returns early when messages is
non-empty, otherwise appends the intro to both transcripts and stores). -/
def seed_intro_message (s : AppState) : AppState :=
  if s.messages = [] then
    persistCurrent
      { s with messages := s.messages ++ [⟨MODEL_ROLE, introMsg, some AI_AVATAR_ICON⟩],
               chat_history := s.chat_history ++ [⟨MODEL_ROLE, introMsg⟩] }
  else s

/-- The provider stream for one turn: either the chunk contents arrive and
iteration completes, or OpenAIError is raised before or during iteration
after some prefix of chunks was consumed. Each chunk is its delta content
(none when absent; a structured part-list is modelled by its joined text). -/
inductive StreamOutcome where
  | ok (chunks : List (Option String))
  | raised (consumed : List (Option String))
  deriving DecidableEq, Repr

/-- Lines 341-351: the accumulation loop over streamed chunks (chunks whose
content is falsy are skipped before the buffer is extended). -/
def accumLoop : List (Option String) → String → String
  | [], acc => acc
  | c :: cs, acc =>
    let piece := c.getD ""
    if piece = "" then accumLoop cs acc else accumLoop cs (acc ++ piece)

/-- Lines 334-358: full_response at the end of the try/except block. -/
def finalText : StreamOutcome → String
  | .ok cs => let t := accumLoop cs ""; if t = "" then noResponsePlaceholder else t
  | .raised _ => apiErrorSentinel

/-- Lines 303-323: the title-derivation guard, the user-turn append to both
transcripts, and the immediate persist of the user turn. -/
def afterUser (s : AppState) (p : String) : AppState :=
  let title :=
    if s.chat_store s.chat_id = none ∧ (s.chat_title = "" ∨ s.chat_title = "New Chat") then
      friendly_title_from_prompt p s.chat_id
    else s.chat_title
  persistCurrent
    { s with chat_title := title,
             chat_history := s.chat_history ++ [⟨"user", p⟩],
             messages := s.messages ++ [⟨"user", p, none⟩] }

/-- Lines 361-375: the assistant display entry is always appended; the
model-history entry only when full_response is truthy and differs from the
API-error sentinel; then the final persist. -/
def commitAssistant (s : AppState) (full : String) : AppState :=
  let s1 := { s with messages := s.messages ++ [⟨MODEL_ROLE, full, some AI_AVATAR_ICON⟩] }
  persistCurrent
    (if full ≠ "" ∧ full ≠ apiErrorSentinel then
      { s1 with chat_history := s1.chat_history ++ [⟨"assistant", full⟩] }
    else s1)

/-- An observable step of the submit handler, for the persistence-ordering
claim: a chat_store write, one processed fragment, or the raised error. -/
inductive TurnEvent where
  | storeWrite
  | fragment (t : String)
  | apiFailure
  deriving DecidableEq, Repr

/-- The fragment-processing steps of the streaming section, in arrival
order (skipped falsy chunks process no fragment). -/
def chunkEvents : StreamOutcome → List TurnEvent
  | .ok cs =>
    cs.filterMap fun c =>
      let piece := c.getD ""
      if piece = "" then none else some (TurnEvent.fragment piece)
  | .raised cs =>
    (cs.filterMap fun c =>
      let piece := c.getD ""
      if piece = "" then none else some (TurnEvent.fragment piece)) ++ [TurnEvent.apiFailure]

/-- Lines 302-375: the chat_input handler for one submission, paired with
the ordered trace of chat_store writes and processed fragments. A falsy
prompt never enters the handler. -/
def submitTurnT (s : AppState) (p : String) (r : StreamOutcome) : AppState × List TurnEvent :=
  if p = "" then (s, [])
  else (commitAssistant (afterUser s p) (finalText r),
        TurnEvent.storeWrite :: (chunkEvents r ++ [TurnEvent.storeWrite]))

def submitTurn (s : AppState) (p : String) (r : StreamOutcome) : AppState :=
  (submitTurnT s p r).1

/-- One full script run in page order (lines 213-375): load the active chat,
seed the intro on an empty chat, the sidebar store write, then the submit
handler when a prompt was entered. -/
def scriptRun (s : AppState) (input : Option (String × StreamOutcome)) : AppState :=
  let s1 := persistCurrent (seed_intro_message (load_chat s s.chat_id))
  match input with
  | none => s1
  | some pr => submitTurn s1 pr.1 pr.2

/-- The state after the first page render of a fresh session. -/
def startState (id : String) : AppState := scriptRun (freshState id) none

/-- N further reruns, each submitting one prompt whose stream completes
normally with the given chunks. -/
def runTurns (s : AppState) : List (String × List (Option String)) → AppState
  | [] => s
  | t :: rest => runTurns (scriptRun s (some (t.1, StreamOutcome.ok t.2))) rest

/-- The concatenation, in arrival order, of the non-empty fragment texts. -/
def joinNonEmptyPieces (cs : List (Option String)) : String :=
  String.join ((cs.map fun c => c.getD "").filter fun t => t != "")

/-- The working state and its stored snapshot agree, the chat is seeded, and
the two transcripts are index-aligned: this holds after every completed
script run and is preserved by further successful turns. -/
def GoodState (s : AppState) : Prop :=
  s.chat_store s.chat_id = some (snapshot s)
  ∧ s.messages ≠ []
  ∧ s.messages.length = s.chat_history.length

/-- The 8-word prompt of the title-derivation example. -/
def roofPrompt : String := "Tell me about your roof replacement project please"

/-! ## Reference-level model for the aliasing claim

The value-level AppState above cannot distinguish Python list objects from
their contents, so the copy-vs-alias behaviour of the list(...) calls in
_load_chat and the store writes is modelled separately: lists live in a
heap indexed by references, the working transcripts and every stored record
hold references, and .append mutates in place at a reference. -/

/-- A record stored in chat_store at the reference level: the title plus
references to the two list objects created by list(...). -/
structure RSession where
  title : String
  msgsRef : Nat
  histRef : Nat
  deriving DecidableEq, Repr

def RStore := String → Option RSession

def rStoreSet (st : RStore) (k : String) (v : RSession) : RStore :=
  fun q => if q = k then some v else st q

/-- Session state with explicit list objects: heapM and heapH hold the
display-list and history-list objects, indexed by reference. -/
structure RState where
  heapM : List (List MsgD)
  heapH : List (List MsgH)
  store : RStore
  chat_id : String
  chat_title : String
  msgsRef : Nat
  histRef : Nat

/-- Dereference a list object. -/
def heapRead {α : Type} (h : List (List α)) (r : Nat) : List α :=
  (h.get? r).getD []

/-- One chat_store[chat_id] = dict(..., messages=list(...), chat_history=list(...))
assignment: list(...) allocates fresh list objects copying the working
contents, and the stored record points at those fresh objects. -/
def persistCurrentR (s : RState) : RState :=
  { s with
    heapM := s.heapM ++ [heapRead s.heapM s.msgsRef],
    heapH := s.heapH ++ [heapRead s.heapH s.histRef],
    store := rStoreSet s.store s.chat_id ⟨s.chat_title, s.heapM.length, s.heapH.length⟩ }

/-- Lines 213-224 at the reference level: the working transcripts become
fresh list objects copying the stored ones (or fresh empty lists). -/
def load_chatR (s : RState) (id : String) : RState :=
  match s.store id with
  | some chat =>
    { s with chat_id := id,
             chat_title := if chat.title = "" then default_chat_title id else chat.title,
             heapM := s.heapM ++ [heapRead s.heapM chat.msgsRef],
             heapH := s.heapH ++ [heapRead s.heapH chat.histRef],
             msgsRef := s.heapM.length,
             histRef := s.heapH.length }
  | none =>
    { s with chat_id := id, chat_title := default_chat_title id,
             heapM := s.heapM ++ [[]],
             heapH := s.heapH ++ [[]],
             msgsRef := s.heapM.length,
             histRef := s.heapH.length }

/-- st.session_state.messages.append(...): in-place mutation of the working
display-list object. -/
def appendMsgR (s : RState) (m : MsgD) : RState :=
  { s with heapM := s.heapM.set s.msgsRef (heapRead s.heapM s.msgsRef ++ [m]) }

/-- st.session_state.chat_history.append(...). -/
def appendHistR (s : RState) (m : MsgH) : RState :=
  { s with heapH := s.heapH.set s.histRef (heapRead s.heapH s.histRef ++ [m]) }

/-- The display-transcript contents of the stored entry for an id. -/
def storedMsgs (s : RState) (id : String) : Option (List MsgD) :=
  (s.store id).map fun chat => heapRead s.heapM chat.msgsRef

/-- The model-history contents of the stored entry for an id. -/
def storedHist (s : RState) (id : String) : Option (List MsgH) :=
  (s.store id).map fun chat => heapRead s.heapH chat.histRef

/-- Reference well-formedness: every stored reference is a live heap index
distinct from the working references (stored records are only ever created
from fresh list(...) copies, never from the working objects themselves). -/
def RWF (s : RState) : Prop :=
  (∀ id chat, s.store id = some chat →
    chat.msgsRef < s.heapM.length ∧ chat.histRef < s.heapH.length
    ∧ chat.msgsRef ≠ s.msgsRef ∧ chat.histRef ≠ s.histRef)
  ∧ s.msgsRef < s.heapM.length ∧ s.histRef < s.heapH.length

/-- The reference-level state right after the session-state defaults. -/
def rInit : RState :=
  { heapM := [[]], heapH := [[]], store := fun _ => none,
    chat_id := "1.0", chat_title := "New Chat", msgsRef := 0, histRef := 0 }

/-! ## Sanity checks on concrete inputs -/

example : pyWords "  a  bc d " = ["a", "bc", "d"] := by decide
example : default_chat_title "1700000000.0" = "Chat 2023-11-14 22:13" := by decide
example : default_chat_title "abc" = "New Chat" := by decide
example : friendly_title_from_prompt "one two three four five six seven eight nine" "x"
    = "one two three four five six seven eight..." := by decide
example : (startState "1.0").messages.length = 1 := by decide
example : (startState "1.0").chat_title = "Chat 1970-01-01 00:00" := by decide
example : (runTurns (startState "1.0") [("Hi", [some "Hello", none, some " there"])]).messages
    = [⟨MODEL_ROLE, introMsg, some AI_AVATAR_ICON⟩, ⟨"user", "Hi", none⟩,
       ⟨MODEL_ROLE, "Hello there", some AI_AVATAR_ICON⟩] := by decide
example : (runTurns (startState "1.0") [("Hi", [some "Hello", none, some " there"])]).chat_history
    = [⟨MODEL_ROLE, introMsg⟩, ⟨"user", "Hi"⟩, ⟨"assistant", "Hello there"⟩] := by decide

/-! ## Helper lemmas -/

theorem strFoldl_append (l : List String) (s : String) :
    l.foldl (fun r t => r ++ t) s = s ++ l.foldl (fun r t => r ++ t) "" := by
  induction l generalizing s with
  | nil => simp
  | cons a t ih =>
    simp only [List.foldl_cons]
    rw [ih (s ++ a), ih ("" ++ a), String.empty_append, String.append_assoc]

theorem strJoin_cons (a : String) (l : List String) :
    String.join (a :: l) = a ++ String.join l := by
  simp only [String.join, List.foldl_cons]
  rw [strFoldl_append l ("" ++ a), String.empty_append]

theorem length_pos_of_ne_empty {s : String} (h : s ≠ "") : 0 < s.length := by
  cases s with
  | mk data =>
    cases data with
    | nil => exact absurd rfl h
    | cons a l => simp [String.length]

theorem ne_empty_of_length_pos {s : String} (h : 0 < s.length) : s ≠ "" := by
  intro he
  subst he
  simp at h

theorem pySplitAux_mem_ne_nil (cs : List Char) :
    ∀ acc l, l ∈ pySplitAux cs acc → l ≠ [] := by
  induction cs with
  | nil =>
    intro acc l hl
    by_cases h : acc.isEmpty
    · simp [pySplitAux, h] at hl
    · simp [pySplitAux, h] at hl
      subst hl
      simp only [List.isEmpty_iff] at h
      simp [List.reverse_eq_nil_iff, h]
  | cons c cs ih =>
    intro acc l hl
    by_cases hsp : pyIsSpace c
    · by_cases h : acc.isEmpty
      · exact ih [] l (by simpa [pySplitAux, hsp, h] using hl)
      · have hmem : l = acc.reverse ∨ l ∈ pySplitAux cs [] := by
          simpa [pySplitAux, hsp, h] using hl
        cases hmem with
        | inl he =>
          subst he
          simp only [List.isEmpty_iff] at h
          simp [List.reverse_eq_nil_iff, h]
        | inr hm => exact ih [] l hm
    · exact ih (c :: acc) l (by simpa [pySplitAux, hsp] using hl)

theorem pyWords_mem_ne_empty {s w : String} (hw : w ∈ pyWords s) : w ≠ "" := by
  rcases List.mem_map.mp hw with ⟨l, hl, rfl⟩
  have hne := pySplitAux_mem_ne_nil s.data [] l hl
  intro h
  exact hne (congrArg String.data h)

theorem joinSp_length_ge (w : String) (ws : List String) :
    w.length ≤ (joinSp (w :: ws)).length := by
  cases ws with
  | nil => simp [joinSp]
  | cons v vs =>
    simp only [joinSp, String.length_append]
    omega

theorem accumLoop_eq (cs : List (Option String)) (acc : String) :
    accumLoop cs acc = acc ++ joinNonEmptyPieces cs := by
  induction cs generalizing acc with
  | nil => simp [accumLoop, joinNonEmptyPieces, String.join]
  | cons c cs ih =>
    by_cases h : c.getD "" = ""
    · simp [accumLoop, h, joinNonEmptyPieces, ih]
    · simp only [accumLoop, h, if_false, joinNonEmptyPieces, List.map_cons, List.filter_cons,
        bne_iff_ne, h, ite_true, decide_not]
      rw [ih]
      simp only [joinNonEmptyPieces]
      rw [if_pos (by simpa using h), strJoin_cons, String.append_assoc]

theorem finalText_ok_ne_empty (cs : List (Option String)) : finalText (.ok cs) ≠ "" := by
  simp only [finalText]
  by_cases h : accumLoop cs "" = ""
  · simp [h, noResponsePlaceholder]
  · rw [if_neg h]
    exact h

theorem seed_of_ne {s : AppState} (h : s.messages ≠ []) : seed_intro_message s = s := by
  simp [seed_intro_message, h]

/-! ## Claim theorems -/

/-- Claim C1: when the provider call raises an API error before or during
fragment iteration, the submit handler appends exactly one entry, the fixed
sentinel string, to the display transcript beyond the recorded user message,
leaves the model history exactly as it was after the user message was
recorded, and persists exactly that state, discarding any partially
accumulated streamed text. -/
theorem C1_failure_isolation (s : AppState) (p : String) (consumed : List (Option String))
    (hp : p ≠ "") :
    (submitTurn s p (.raised consumed)).messages
        = s.messages ++ [⟨"user", p, none⟩, ⟨MODEL_ROLE, apiErrorSentinel, some AI_AVATAR_ICON⟩]
    ∧ (submitTurn s p (.raised consumed)).chat_history = s.chat_history ++ [⟨"user", p⟩]
    ∧ (submitTurn s p (.raised consumed)).chat_store s.chat_id
        = some (snapshot (submitTurn s p (.raised consumed))) := by
  simp [submitTurn, submitTurnT, hp, commitAssistant, afterUser, persistCurrent,
    snapshot, storeSet, finalText]

theorem C1_witness :
    (submitTurn (freshState "1.0") "Hi" (.raised [some "partial text"])).chat_history
      = [⟨"user", "Hi"⟩] := by
  have h := C1_failure_isolation (freshState "1.0") "Hi" [some "partial text"] (by decide)
  simpa [freshState] using h.2.1

/-- Claim C2 as stated is falsified here: a fragment sequence that completes
normally but concatenates exactly to the API-error sentinel string is
appended to the display transcript yet not to the model history. -/
theorem C2_counterexample :
    (submitTurn (freshState "1.0") "Hi" (.ok [some apiErrorSentinel])).messages
        = [⟨"user", "Hi", none⟩, ⟨MODEL_ROLE, apiErrorSentinel, some AI_AVATAR_ICON⟩]
    ∧ (submitTurn (freshState "1.0") "Hi" (.ok [some apiErrorSentinel])).chat_history
        = [⟨"user", "Hi"⟩]
    ∧ (submitTurn (freshState "1.0") "Hi" (.ok [some apiErrorSentinel])).chat_history
        ≠ [⟨"user", "Hi"⟩, ⟨"assistant", apiErrorSentinel⟩] := by
  exact ⟨by decide, by decide, by decide⟩

/-- Claim C2 (amended): on normal completion the final assistant text is the
concatenation, in arrival order, of the non-empty fragment texts, normalized
to the placeholder when empty, and it is appended as one assistant turn to
both transcripts, except that a final text equal to the API-error sentinel
string is appended to the display transcript only. -/
theorem C2_success_commit (s : AppState) (p : String) (cs : List (Option String))
    (hp : p ≠ "") :
    finalText (.ok cs)
      = (if joinNonEmptyPieces cs = "" then noResponsePlaceholder else joinNonEmptyPieces cs)
    ∧ (submitTurn s p (.ok cs)).messages
        = s.messages ++ [⟨"user", p, none⟩, ⟨MODEL_ROLE, finalText (.ok cs), some AI_AVATAR_ICON⟩]
    ∧ (finalText (.ok cs) ≠ apiErrorSentinel →
        (submitTurn s p (.ok cs)).chat_history
          = s.chat_history ++ [⟨"user", p⟩, ⟨"assistant", finalText (.ok cs)⟩])
    ∧ (finalText (.ok cs) = apiErrorSentinel →
        (submitTurn s p (.ok cs)).chat_history = s.chat_history ++ [⟨"user", p⟩]) := by
  refine ⟨?_, ?_, ?_, ?_⟩
  · simp [finalText, accumLoop_eq cs "", String.empty_append]
  · by_cases hc : finalText (.ok cs) ≠ "" ∧ finalText (.ok cs) ≠ apiErrorSentinel
    · simp [submitTurn, submitTurnT, hp, commitAssistant, afterUser, persistCurrent, hc]
    · simp [submitTurn, submitTurnT, hp, commitAssistant, afterUser, persistCurrent, hc]
  · intro hne
    simp [submitTurn, submitTurnT, hp, commitAssistant, afterUser, persistCurrent,
      finalText_ok_ne_empty cs, hne]
  · intro he
    simp [submitTurn, submitTurnT, hp, commitAssistant, afterUser, persistCurrent, he]

theorem C2_witness :
    (submitTurn (freshState "1.0") "Hi" (.ok [some "Hello", none, some " there"])).chat_history
      = [⟨"user", "Hi"⟩, ⟨"assistant", "Hello there"⟩] := by
  have h := C2_success_commit (freshState "1.0") "Hi" [some "Hello", none, some " there"]
    (by decide)
  have h2 := h.2.2.1 (by decide)
  simpa [freshState] using h2

/-- Claim C4 as stated is falsified here: a whitespace-only prompt is truthy
for the chat_input guard, so it is recorded and processed as an ordinary
turn rather than rejected as a no-op. -/
theorem C4_counterexample :
    (submitTurn (freshState "1.0") " " (.ok [some "Hello"])).messages
        = [⟨"user", " ", none⟩, ⟨MODEL_ROLE, "Hello", some AI_AVATAR_ICON⟩]
    ∧ (submitTurn (freshState "1.0") " " (.ok [some "Hello"])).chat_history
        = [⟨"user", " "⟩, ⟨"assistant", "Hello"⟩]
    ∧ (submitTurn (freshState "1.0") " " (.ok [some "Hello"])).messages
        ≠ (freshState "1.0").messages := by
  exact ⟨by decide, by decide, by decide⟩

/-- Claim C4 (amended): only a falsy (empty) prompt is rejected as a no-op
by the chat_input guard; whitespace-only prompts are processed as ordinary
turns. -/
theorem C4_empty_prompt_noop (s : AppState) (r : StreamOutcome) :
    submitTurn s "" r = s := by
  simp [submitTurn, submitTurnT]

/-- Claim C5: writing the title/messages/chat_history snapshot into the
store under the session id and then loading that id reproduces a display
transcript and a model history equal to the saved ones. -/
theorem C5_save_load_roundtrip (s : AppState) :
    (load_chat (persistCurrent s) s.chat_id).messages = s.messages
    ∧ (load_chat (persistCurrent s) s.chat_id).chat_history = s.chat_history := by
  simp [load_chat, persistCurrent, storeSet, snapshot]

/-- Claim C9: within one submitted turn the per-session store is written
exactly at the persist after the user turn and the persist after the
terminal outcome; strictly between them only fragment processing (and
possibly the raised API error) occurs, never a store write, so no
fragment-level partial text is ever persisted. -/
theorem C9_no_mid_stream_persist (s : AppState) (p : String) (r : StreamOutcome)
    (hp : p ≠ "") :
    (submitTurnT s p r).2 = TurnEvent.storeWrite :: (chunkEvents r ++ [TurnEvent.storeWrite])
    ∧ ∀ e ∈ chunkEvents r, e ≠ TurnEvent.storeWrite := by
  constructor
  · simp [submitTurnT, hp]
  · intro e he
    cases r with
    | ok cs =>
      simp only [chunkEvents, List.mem_filterMap] at he
      rcases he with ⟨c, _, hc⟩
      by_cases h : c.getD "" = ""
      · simp [h] at hc
      · simp [h] at hc
        simp [← hc]
    | raised cs =>
      simp only [chunkEvents, List.mem_append, List.mem_filterMap,
        List.mem_singleton] at he
      rcases he with ⟨c, _, hc⟩ | rfl
      · by_cases h : c.getD "" = ""
        · simp [h] at hc
        · simp [h] at hc
          simp [← hc]
      · simp

theorem submitTurn_messages (s : AppState) (p : String) (r : StreamOutcome) (hp : p ≠ "") :
    (submitTurn s p r).messages
      = s.messages ++ [⟨"user", p, none⟩, ⟨MODEL_ROLE, finalText r, some AI_AVATAR_ICON⟩] := by
  by_cases hc : finalText r ≠ "" ∧ finalText r ≠ apiErrorSentinel
  · simp [submitTurn, submitTurnT, hp, commitAssistant, afterUser, persistCurrent, hc]
  · simp [submitTurn, submitTurnT, hp, commitAssistant, afterUser, persistCurrent, hc]

theorem submitTurn_history_success (s : AppState) (p : String) (r : StreamOutcome)
    (hp : p ≠ "") (h1 : finalText r ≠ "") (h2 : finalText r ≠ apiErrorSentinel) :
    (submitTurn s p r).chat_history
      = s.chat_history ++ [⟨"user", p⟩, ⟨"assistant", finalText r⟩] := by
  simp [submitTurn, submitTurnT, hp, commitAssistant, afterUser, persistCurrent, h1, h2]

theorem submitTurn_chat_id (s : AppState) (p : String) (r : StreamOutcome) :
    (submitTurn s p r).chat_id = s.chat_id := by
  by_cases hp : p = ""
  · simp [submitTurn, submitTurnT, hp]
  · by_cases hc : finalText r ≠ "" ∧ finalText r ≠ apiErrorSentinel
    · simp [submitTurn, submitTurnT, hp, commitAssistant, afterUser, persistCurrent, hc]
    · simp [submitTurn, submitTurnT, hp, commitAssistant, afterUser, persistCurrent, hc]

theorem submitTurn_store_self (s : AppState) (p : String) (r : StreamOutcome) (hp : p ≠ "") :
    (submitTurn s p r).chat_store s.chat_id = some (snapshot (submitTurn s p r)) := by
  by_cases hc : finalText r ≠ "" ∧ finalText r ≠ apiErrorSentinel
  · simp [submitTurn, submitTurnT, hp, commitAssistant, afterUser, persistCurrent, hc,
      snapshot, storeSet]
  · simp [submitTurn, submitTurnT, hp, commitAssistant, afterUser, persistCurrent, hc,
      snapshot, storeSet]

theorem scriptRun_ok_step (s : AppState) (p : String) (cs : List (Option String))
    (hg : GoodState s) (hp : p ≠ "") (hs : finalText (.ok cs) ≠ apiErrorSentinel) :
    GoodState (scriptRun s (some (p, .ok cs)))
    ∧ (scriptRun s (some (p, .ok cs))).messages.length = s.messages.length + 2
    ∧ (scriptRun s (some (p, .ok cs))).chat_history.length = s.chat_history.length + 2 := by
  obtain ⟨h1, h2, h3⟩ := hg
  have hl : load_chat s s.chat_id
      = { s with chat_title := if s.chat_title = "" then default_chat_title s.chat_id
                 else s.chat_title } := by
    simp [load_chat, h1, snapshot]
  have hseed : seed_intro_message (load_chat s s.chat_id) = load_chat s s.chat_id :=
    seed_of_ne (by rw [hl]; exact h2)
  have hrun : scriptRun s (some (p, .ok cs))
      = submitTurn (persistCurrent (load_chat s s.chat_id)) p (.ok cs) := by
    simp [scriptRun, hseed]
  have hm3 : (persistCurrent (load_chat s s.chat_id)).messages = s.messages := by
    rw [hl]
    rfl
  have hh3 : (persistCurrent (load_chat s s.chat_id)).chat_history = s.chat_history := by
    rw [hl]
    rfl
  have hid3 : (persistCurrent (load_chat s s.chat_id)).chat_id = s.chat_id := by
    rw [hl]
    rfl
  have hfne : finalText (.ok cs) ≠ "" := finalText_ok_ne_empty cs
  have hmsg := submitTurn_messages (persistCurrent (load_chat s s.chat_id)) p (.ok cs) hp
  have hhist := submitTurn_history_success (persistCurrent (load_chat s s.chat_id)) p (.ok cs)
    hp hfne hs
  refine ⟨⟨?_, ?_, ?_⟩, ?_, ?_⟩
  · rw [hrun, submitTurn_chat_id]
    exact submitTurn_store_self _ p _ hp
  · rw [hrun, hmsg, hm3]
    simp
  · rw [hrun, hmsg, hhist, hm3, hh3]
    simp [h3]
  · rw [hrun, hmsg, hm3]
    simp
  · rw [hrun, hhist, hh3]
    simp

theorem runTurns_count (turns : List (String × List (Option String))) :
    ∀ s : AppState, GoodState s →
      (∀ t ∈ turns, t.1 ≠ "" ∧ finalText (StreamOutcome.ok t.2) ≠ apiErrorSentinel) →
      GoodState (runTurns s turns)
      ∧ (runTurns s turns).messages.length = s.messages.length + 2 * turns.length
      ∧ (runTurns s turns).chat_history.length = s.chat_history.length + 2 * turns.length := by
  induction turns with
  | nil =>
    intro s hg _
    exact ⟨hg, by simp [runTurns], by simp [runTurns]⟩
  | cons t rest ih =>
    intro s hg hall
    have ht := hall t (List.mem_cons_self t rest)
    have hstep := scriptRun_ok_step s t.1 t.2 hg ht.1 ht.2
    have hrest := ih (scriptRun s (some (t.1, StreamOutcome.ok t.2))) hstep.1
      (fun u hu => hall u (List.mem_cons_of_mem t hu))
    refine ⟨by simpa [runTurns] using hrest.1, ?_, ?_⟩
    · have ha := hrest.2.1
      have hb := hstep.2.1
      simp only [runTurns, List.length_cons] at ha ⊢
      omega
    · have ha := hrest.2.2
      have hb := hstep.2.2
      simp only [runTurns, List.length_cons] at ha ⊢
      omega

theorem startState_good (id : String) :
    GoodState (startState id)
    ∧ (startState id).messages.length = 1
    ∧ (startState id).chat_history.length = 1 := by
  refine ⟨⟨?_, ?_, ?_⟩, ?_, ?_⟩ <;>
    simp [startState, scriptRun, freshState, load_chat, seed_intro_message,
      persistCurrent, storeSet, snapshot, GoodState]

/-- Claim C3 is right about the intended behaviour, but the code never
derives a title from the first prompt: before the submit handler runs,
_load_chat has already replaced the default title with the timestamp
fallback and the seeding/sidebar writes have already stored the session id,
so the guard of lines 304-306 is never satisfied and the derived-title
branch is dead. On the first prompt of a fresh session the title stays the
timestamp fallback instead of the derived snippet. -/
theorem C3_title_derivation_dead :
    (scriptRun (freshState "1700000000.0")
        (some ("Tell me about your roof project", .ok [some "Sure."]))).chat_title
      = "Chat 2023-11-14 22:13"
    ∧ friendly_title_from_prompt "Tell me about your roof project" "1700000000.0"
      = "Tell me about your roof project"
    ∧ (scriptRun (freshState "1700000000.0")
        (some ("Tell me about your roof project", .ok [some "Sure."]))).chat_title
      ≠ friendly_title_from_prompt "Tell me about your roof project" "1700000000.0" := by
  exact ⟨by decide, by decide, by decide⟩

/-- Claim C6 as stated is falsified here: a single successful turn whose
streamed text equals the API-error sentinel leaves the display transcript
with 2N+1 entries but the model history with only 2N. -/
theorem C6_counterexample :
    (runTurns (startState "1.0") [("Hi", [some apiErrorSentinel])]).messages.length = 3
    ∧ (runTurns (startState "1.0") [("Hi", [some apiErrorSentinel])]).chat_history.length = 2 := by
  exact ⟨by decide, by decide⟩

/-- Claim C6 (amended): after N successful turns on a fresh session, both
transcripts hold exactly 2N entries plus the intro turn counted once,
provided no successful turn's final text equals the API-error sentinel
string (such a turn is withheld from the model history); seeding a
non-empty session changes nothing. -/
theorem C6_turn_count (id : String) (turns : List (String × List (Option String)))
    (hall : ∀ t ∈ turns, t.1 ≠ "" ∧ finalText (StreamOutcome.ok t.2) ≠ apiErrorSentinel) :
    ((runTurns (startState id) turns).messages.length = 2 * turns.length + 1
     ∧ (runTurns (startState id) turns).chat_history.length = 2 * turns.length + 1)
    ∧ (∀ s : AppState, s.messages ≠ [] → seed_intro_message s = s) := by
  have h0 := startState_good id
  have h := runTurns_count turns (startState id) h0.1 hall
  refine ⟨⟨?_, ?_⟩, fun s hs => seed_of_ne hs⟩
  · have := h.2.1
    have := h0.2.1
    omega
  · have := h.2.2
    have := h0.2.2
    omega

theorem C6_witness :
    (runTurns (startState "1.0") [("Hi", [some "Hello"])]).messages.length = 3
    ∧ (runTurns (startState "1.0") [("Hi", [some "Hello"])]).chat_history.length = 3 :=
  (C6_turn_count "1.0" [("Hi", [some "Hello"])] (by decide)).1

/-- Claim C7 as stated is falsified here: the example prompt has exactly 8
whitespace-delimited words, so the code returns it unchanged and appends no
ellipsis; the claimed output drops the eighth word and adds one. -/
theorem C7_counterexample :
    friendly_title_from_prompt roofPrompt "x" = roofPrompt
    ∧ friendly_title_from_prompt roofPrompt "x"
        ≠ "Tell me about your roof replacement project..." := by
  exact ⟨by decide, by decide⟩

/-- Claim C7 (amended): title derivation applied to the prompt returns the
prompt itself for any id, since it has exactly 8 words and the ellipsis is
appended only when the prompt has more than 8 words. -/
theorem C7_eight_word_prompt (id : String) :
    friendly_title_from_prompt roofPrompt id = roofPrompt := by
  have hw : pyWords roofPrompt
      = ["Tell", "me", "about", "your", "roof", "replacement", "project", "please"] := by
    decide
  simp only [friendly_title_from_prompt, hw]
  rw [if_neg (by decide), if_neg (by decide)]
  decide

/-- Claim C8: for every prompt and id, a prompt with words yields its first
8 whitespace-delimited words joined by single spaces, with the ellipsis
marker appended exactly when there are more than 8 words; a wordless prompt
falls back to the timestamp-formatted id when the id parses as a usable
numeric epoch value and to the generic label otherwise, with the documented
behaviour on the concrete example id; and the result is never empty. -/
theorem C8_title_derivation_total (p id : String) :
    (8 < (pyWords p).length →
      friendly_title_from_prompt p id = joinSp ((pyWords p).take 8) ++ "...")
    ∧ (pyWords p ≠ [] → (pyWords p).length ≤ 8 →
      friendly_title_from_prompt p id = joinSp (pyWords p))
    ∧ (pyWords p = [] → friendly_title_from_prompt p id = default_chat_title id)
    ∧ (∀ t, epochFromId? id = some t → default_chat_title id = "Chat " ++ formatEpochMinute t)
    ∧ (epochFromId? id = none → default_chat_title id = "New Chat")
    ∧ friendly_title_from_prompt "   " "1700000000.0" = "Chat 2023-11-14 22:13"
    ∧ friendly_title_from_prompt p id ≠ "" := by
  refine ⟨?_, ?_, ?_, ?_, ?_, by decide, ?_⟩
  · intro h8
    have hne : ¬(pyWords p).isEmpty := by
      simp only [List.isEmpty_iff]
      intro he
      rw [he] at h8
      simp at h8
    simp [friendly_title_from_prompt, hne, h8]
  · intro hne h8
    have hne2 : ¬(pyWords p).isEmpty := by simpa [List.isEmpty_iff] using hne
    have h8n : ¬ 8 < (pyWords p).length := by omega
    simp [friendly_title_from_prompt, hne2, h8n, List.take_of_length_le h8]
  · intro he
    simp [friendly_title_from_prompt, he]
  · intro t ht
    simp [default_chat_title, ht]
  · intro hn
    simp [default_chat_title, hn]
  · by_cases he : pyWords p = []
    · simp only [friendly_title_from_prompt, he, List.isEmpty_nil, if_true]
      cases hep : epochFromId? id with
      | none => simp [default_chat_title, hep]
      | some t =>
        simp only [default_chat_title, hep]
        apply ne_empty_of_length_pos
        rw [String.length_append]
        have h5 : "Chat ".length = 5 := by decide
        omega
    · rcases hw : pyWords p with _ | ⟨w, ws⟩
      · exact absurd hw he
      · have hwm : w ∈ pyWords p := by rw [hw]; exact List.mem_cons_self w ws
        have hwne : w ≠ "" := pyWords_mem_ne_empty hwm
        have hwpos : 0 < w.length := length_pos_of_ne_empty hwne
        have htake : (pyWords p).take 8 = w :: ws.take 7 := by
          rw [hw]
          rfl
        have hsnip : 0 < (joinSp ((pyWords p).take 8)).length := by
          rw [htake]
          have := joinSp_length_ge w (ws.take 7)
          omega
        have hne2 : ¬(pyWords p).isEmpty := by simp [List.isEmpty_iff, hw]
        by_cases h8 : 8 < (pyWords p).length
        · have hfe : friendly_title_from_prompt p id = joinSp ((pyWords p).take 8) ++ "..." := by
            simp [friendly_title_from_prompt, hne2, h8]
          rw [hfe]
          apply ne_empty_of_length_pos
          rw [String.length_append]
          omega
        · have hfe : friendly_title_from_prompt p id = joinSp ((pyWords p).take 8) := by
            simp [friendly_title_from_prompt, hne2, h8]
          rw [hfe]
          exact ne_empty_of_length_pos hsnip

theorem C8_witness :
    friendly_title_from_prompt "one two three four five six seven eight nine" "x"
      = joinSp ((pyWords "one two three four five six seven eight nine").take 8) ++ "..." :=
  (C8_title_derivation_total "one two three four five six seven eight nine" "x").1
    (by decide)

theorem C9_witness :
    (submitTurnT (freshState "1.0") "Hi" (.ok [some "He", none, some "y"])).2
      = [TurnEvent.storeWrite, TurnEvent.fragment "He", TurnEvent.fragment "y",
         TurnEvent.storeWrite] := by
  have h := C9_no_mid_stream_persist (freshState "1.0") "Hi"
    (.ok [some "He", none, some "y"]) (by decide)
  rw [h.1]
  decide

theorem heapRead_append_of_lt {α : Type} (h : List (List α)) (v : List α) (r : Nat)
    (hr : r < h.length) : heapRead (h ++ [v]) r = heapRead h r := by
  simp [heapRead, List.getElem?_append_left hr]

theorem heapRead_append_self {α : Type} (h : List (List α)) (v : List α) :
    heapRead (h ++ [v]) h.length = v := by
  simp [heapRead, List.getElem?_concat_length]

theorem heapRead_set_of_ne {α : Type} (h : List (List α)) (r r2 : Nat) (v : List α)
    (hne : r2 ≠ r) : heapRead (h.set r2 v) r = heapRead h r := by
  simp [heapRead, List.getElem?_set_ne hne]

/-- Claim C10: stored snapshots and the working transcripts never alias.
After a load, appending to the working lists leaves every stored entry
unchanged; after a save, appending to the working lists leaves every stored
entry unchanged; loading changes no stored contents at all; and a save
stores fresh copies equal to the current working contents. -/
theorem C10_no_alias (s : RState) (hwf : RWF s) :
    (∀ id id2 m, storedMsgs (appendMsgR (load_chatR s id) m) id2
        = storedMsgs (load_chatR s id) id2)
    ∧ (∀ id id2 m, storedHist (appendHistR (load_chatR s id) m) id2
        = storedHist (load_chatR s id) id2)
    ∧ (∀ id2 m, storedMsgs (appendMsgR (persistCurrentR s) m) id2
        = storedMsgs (persistCurrentR s) id2)
    ∧ (∀ id2 m, storedHist (appendHistR (persistCurrentR s) m) id2
        = storedHist (persistCurrentR s) id2)
    ∧ (∀ id id2, storedMsgs (load_chatR s id) id2 = storedMsgs s id2
        ∧ storedHist (load_chatR s id) id2 = storedHist s id2)
    ∧ storedMsgs (persistCurrentR s) s.chat_id = some (heapRead s.heapM s.msgsRef)
    ∧ storedHist (persistCurrentR s) s.chat_id = some (heapRead s.heapH s.histRef) := by
  obtain ⟨hstore, hm, hh⟩ := hwf
  refine ⟨?_, ?_, ?_, ?_, ?_, ?_, ?_⟩
  · intro id id2 m
    cases hld : s.store id with
    | some chat =>
      cases h2 : s.store id2 with
      | some chat2 =>
        have hb := (hstore id2 chat2 h2).1
        simp only [load_chatR, hld, appendMsgR, storedMsgs, h2, Option.map_some']
        rw [heapRead_set_of_ne _ _ _ _ (Nat.ne_of_gt hb)]
      | none => simp [load_chatR, hld, appendMsgR, storedMsgs, h2]
    | none =>
      cases h2 : s.store id2 with
      | some chat2 =>
        have hb := (hstore id2 chat2 h2).1
        simp only [load_chatR, hld, appendMsgR, storedMsgs, h2, Option.map_some']
        rw [heapRead_set_of_ne _ _ _ _ (Nat.ne_of_gt hb)]
      | none => simp [load_chatR, hld, appendMsgR, storedMsgs, h2]
  · intro id id2 m
    cases hld : s.store id with
    | some chat =>
      cases h2 : s.store id2 with
      | some chat2 =>
        have hb := (hstore id2 chat2 h2).2.1
        simp only [load_chatR, hld, appendHistR, storedHist, h2, Option.map_some']
        rw [heapRead_set_of_ne _ _ _ _ (Nat.ne_of_gt hb)]
      | none => simp [load_chatR, hld, appendHistR, storedHist, h2]
    | none =>
      cases h2 : s.store id2 with
      | some chat2 =>
        have hb := (hstore id2 chat2 h2).2.1
        simp only [load_chatR, hld, appendHistR, storedHist, h2, Option.map_some']
        rw [heapRead_set_of_ne _ _ _ _ (Nat.ne_of_gt hb)]
      | none => simp [load_chatR, hld, appendHistR, storedHist, h2]
  · intro id2 m
    by_cases hq : id2 = s.chat_id
    · subst hq
      simp only [persistCurrentR, appendMsgR, storedMsgs, rStoreSet, if_true,
        Option.map_some']
      rw [heapRead_set_of_ne _ _ _ _ (Nat.ne_of_lt hm)]
    · cases h2 : s.store id2 with
      | some chat2 =>
        have hb := (hstore id2 chat2 h2).2.2.1
        simp only [persistCurrentR, appendMsgR, storedMsgs, rStoreSet]
        rw [if_neg hq]
        simp only [h2, Option.map_some']
        rw [heapRead_set_of_ne _ _ _ _ (Ne.symm hb)]
      | none =>
        simp only [persistCurrentR, appendMsgR, storedMsgs, rStoreSet]
        rw [if_neg hq]
        simp [h2]
  · intro id2 m
    by_cases hq : id2 = s.chat_id
    · subst hq
      simp only [persistCurrentR, appendHistR, storedHist, rStoreSet, if_true,
        Option.map_some']
      rw [heapRead_set_of_ne _ _ _ _ (Nat.ne_of_lt hh)]
    · cases h2 : s.store id2 with
      | some chat2 =>
        have hb := (hstore id2 chat2 h2).2.2.2
        simp only [persistCurrentR, appendHistR, storedHist, rStoreSet]
        rw [if_neg hq]
        simp only [h2, Option.map_some']
        rw [heapRead_set_of_ne _ _ _ _ (Ne.symm hb)]
      | none =>
        simp only [persistCurrentR, appendHistR, storedHist, rStoreSet]
        rw [if_neg hq]
        simp [h2]
  · intro id id2
    cases hld : s.store id with
    | some chat =>
      cases h2 : s.store id2 with
      | some chat2 =>
        constructor
        · simp only [load_chatR, hld, storedMsgs, h2, Option.map_some']
          rw [heapRead_append_of_lt _ _ _ (hstore id2 chat2 h2).1]
        · simp only [load_chatR, hld, storedHist, h2, Option.map_some']
          rw [heapRead_append_of_lt _ _ _ (hstore id2 chat2 h2).2.1]
      | none => simp [load_chatR, hld, storedMsgs, storedHist, h2]
    | none =>
      cases h2 : s.store id2 with
      | some chat2 =>
        constructor
        · simp only [load_chatR, hld, storedMsgs, h2, Option.map_some']
          rw [heapRead_append_of_lt _ _ _ (hstore id2 chat2 h2).1]
        · simp only [load_chatR, hld, storedHist, h2, Option.map_some']
          rw [heapRead_append_of_lt _ _ _ (hstore id2 chat2 h2).2.1]
      | none => simp [load_chatR, hld, storedMsgs, storedHist, h2]
  · simp only [persistCurrentR, storedMsgs, rStoreSet, if_true, Option.map_some']
    rw [heapRead_append_self]
  · simp only [persistCurrentR, storedHist, rStoreSet, if_true, Option.map_some']
    rw [heapRead_append_self]

theorem C10_witness :
    storedMsgs (appendMsgR (persistCurrentR rInit) ⟨"user", "Hi", none⟩) "1.0"
      = storedMsgs (persistCurrentR rInit) "1.0"
    ∧ storedMsgs (persistCurrentR rInit) "1.0" = some [] := by
  have hwf : RWF rInit := by
    refine ⟨?_, by decide, by decide⟩
    intro id chat hc
    simp [rInit] at hc
  exact ⟨(C10_no_alias rInit hwf).2.2.1 "1.0" ⟨"user", "Hi", none⟩, by decide⟩

end KnitecIQ
